import Mathlib

/-!
Shallow embedding of the clipboard change-detection and bounded-history
engine implemented in `src/src-tauri/src/lib.rs`.

Modelling conventions:

* `usize` and `u64` timestamps become `Nat` (ids start at 0 and only grow by
  small increments; no claim depends on overflow behaviour).
* `Vec<ClipboardItem>` becomes `List ClipboardItem` (front of the list is the
  oldest entry, matching `Vec` index 0; `Vec::push` is `++ [item]`,
  `Vec::remove(0)` is `List.drop 1`, `Vec::split_off(k)` keeps `List.drop k`).
* The `DefaultHasher` fingerprint of `calculate_hash` is modelled by the exact
  sequence of strings fed to the hasher, in order.  Rust's `str::hash` writes
  the UTF-8 bytes followed by a `0xff` terminator byte (which never occurs in
  valid UTF-8), so the byte stream consumed by the hasher and the list of
  hashed strings determine each other, and two items receive equal `u64`
  hashes whenever their hashed-string lists are equal.  Every claim below
  depends only on this equal-input ⟹ equal-hash direction, never on
  collision-freedom, so the model compares the input streams directly.
* The clipboard capability (`ClipboardContext`) is an opaque environment
  record: `has(format)` becomes a `Bool` field and each `get_*`/save call an
  `Except String _` field holding the result the capability would return.
* Filesystem effects (creating the image directory, `save_to_path`) and the
  Tauri runtime plumbing (locks, `emit`) are outside the store logic; saving
  is modelled by its `Result`, and `handle_clipboard_update` is modelled up to
  the point where it has mutated the store and decided between `Ok(true)`
  (a stored item, subsequently emitted) and `Ok(false)` ("no change").
-/

namespace ClipboardDemo

deriving instance DecidableEq for Except

/-- Rust `enum ClipboardContentType` from `lib.rs` lines 62-71. -/
inductive ClipboardContentType where
  | text
  | richText
  | html
  | image
  | file
  | unknown
  deriving DecidableEq, Repr

/-- Rust `struct ClipboardItem` from `lib.rs` lines 49-59. -/
structure ClipboardItem where
  id : Nat
  content : String
  content_type : ClipboardContentType
  html_content : Option String
  rtf_content : Option String
  image_path : Option String
  timestamp : Nat
  deriving DecidableEq, Repr

/-- Rust `struct ClipboardState` from `lib.rs` lines 74-80.  The
`last_content_hash : Option<u64>` field holds the modelled fingerprint, i.e.
the list of strings that were fed to the `DefaultHasher`. -/
structure ClipboardState where
  history : List ClipboardItem
  last_content_hash : Option (List String)
  next_id : Nat
  max_history_size : Nat
  deriving DecidableEq, Repr

/-- Rust `impl Default for ClipboardState` from `lib.rs` lines 82-91. -/
def ClipboardState.default : ClipboardState :=
  { history := []
    last_content_hash := none
    next_id := 0
    max_history_size := 100 }

/-- Rust `ClipboardState::calculate_hash` from `lib.rs` lines 112-128: the hasher
consumes `content`, then `html_content`, `rtf_content` and `image_path` when
present.  `id`, `content_type` and `timestamp` are never hashed. -/
def calculate_hash (item : ClipboardItem) : List String :=
  [item.content] ++ item.html_content.toList ++ item.rtf_content.toList
    ++ item.image_path.toList

/-- Rust `ClipboardState::create_item` from `lib.rs` lines 131-153: builds an item
carrying the current `next_id` and the current timestamp, without mutating the
state. -/
def create_item (s : ClipboardState) (content : String)
    (content_type : ClipboardContentType) (html_content : Option String)
    (rtf_content : Option String) (image_path : Option String)
    (now : Nat) : ClipboardItem :=
  { id := s.next_id
    content := content
    content_type := content_type
    html_content := html_content
    rtf_content := rtf_content
    image_path := image_path
    timestamp := now }

/-- Rust `ClipboardState::add_item` from `lib.rs` lines 95-109: push the item, drop
the oldest entry if the length now exceeds `max_history_size`, record the
item's fingerprint as `last_content_hash`, and advance `next_id`. -/
def add_item (s : ClipboardState) (item : ClipboardItem) :
    ClipboardState × ClipboardItem :=
  let pushed := s.history ++ [item]
  let trimmed := if pushed.length > s.max_history_size then pushed.drop 1
    else pushed
  ({ history := trimmed
     last_content_hash := some (calculate_hash item)
     next_id := s.next_id + 1
     max_history_size := s.max_history_size }, item)

/-- The `(display_text, content_kind, variants)` tuple that classification in
`handle_clipboard_update` (lines 187-256) produces before the store is
touched. -/
structure Classified where
  content : String
  content_type : ClipboardContentType
  html_content : Option String
  rtf_content : Option String
  image_path : Option String
  deriving DecidableEq, Repr

/-- One observation of the clipboard capability: the answers `ClipboardContext`
would give to the calls made during a single classification pass.
`save_image` is the result of `image.save_to_path` (line 209). -/
structure ClipEnv where
  hasImage : Bool
  hasRtf : Bool
  hasHtml : Bool
  get_image : Except String Unit
  save_image : Except String Unit
  get_rich_text : Except String String
  get_html : Except String String
  get_text : Except String String
  deriving DecidableEq, Repr

/-- The file name `format!("clipboard_image_{}.png", timestamp)` from
`lib.rs` line 205. -/
def imageFileName (ts : Nat) : String :=
  "clipboard_image_" ++ toString ts ++ ".png"

/-- The classification pass of `ClipboardStateManager::handle_clipboard_update`,
`lib.rs` lines 187-256: image takes precedence, then RTF, then HTML, then
plain text; read failures degrade to fixed placeholder strings. -/
def classify (env : ClipEnv) (ts : Nat) : Classified :=
  if env.hasImage then
    match env.get_image with
    | .ok _ =>
      match env.save_image with
      | .ok _ =>
        { content := "[图片内容]", content_type := .image,
          html_content := none, rtf_content := none,
          image_path := some (imageFileName ts) }
      | .error _ =>
        { content := "[图片内容-保存失败]", content_type := .image,
          html_content := none, rtf_content := none, image_path := none }
    | .error _ =>
      { content := "[图片内容-读取失败]", content_type := .image,
        html_content := none, rtf_content := none, image_path := none }
  else if env.hasRtf then
    { content := match env.get_text with
        | .ok t => t
        | .error _ => "[富文本内容]",
      content_type := .richText, html_content := none,
      rtf_content := env.get_rich_text.toOption, image_path := none }
  else if env.hasHtml then
    { content := match env.get_text with
        | .ok t => t
        | .error _ => "[HTML内容]",
      content_type := .html, html_content := env.get_html.toOption,
      rtf_content := none, image_path := none }
  else
    match env.get_text with
    | .ok t =>
      { content := t, content_type := .text, html_content := none,
        rtf_content := none, image_path := none }
    | .error _ =>
      { content := "[读取失败]", content_type := .unknown,
        html_content := none, rtf_content := none, image_path := none }

/-- The store phase of `handle_clipboard_update`, `lib.rs` lines 258-278:
build the candidate item, compare its fingerprint with `last_content_hash`,
and either discard the update (`Ok(false)`, modelled `none`) leaving the state
untouched, or commit it with `add_item` (`Ok(true)` after emitting the stored
item, modelled `some item`). -/
def storePhase (cl : Classified) (ts : Nat) (s : ClipboardState) :
    ClipboardState × Option ClipboardItem :=
  let newItem := create_item s cl.content cl.content_type cl.html_content
    cl.rtf_content cl.image_path ts
  let h := calculate_hash newItem
  if s.last_content_hash = some h then (s, none)
  else
    let r := add_item s newItem
    (r.1, some r.2)

/-- Rust `ClipboardStateManager::handle_clipboard_update`, `lib.rs` lines 174-278:
classification followed by the dedup-gated store mutation. -/
def handle_clipboard_update (env : ClipEnv) (ts : Nat) (s : ClipboardState) :
    ClipboardState × Option ClipboardItem :=
  storePhase (classify env ts) ts s

/-- The `get_clipboard_content` command, `lib.rs` lines 324-378: re-classifies
the live clipboard without touching the store, returns an item with the
temporary id 0; in the image branch nothing is read or saved; in the final
plain-text branch a read failure is returned as an error to the caller. -/
def get_clipboard_content (env : ClipEnv) (ts : Nat) :
    Except String ClipboardItem :=
  if env.hasImage then
    .ok { id := 0, content := "[图片内容]", content_type := .image,
          html_content := none, rtf_content := none, image_path := none,
          timestamp := ts }
  else if env.hasRtf then
    .ok { id := 0,
          content := match env.get_text with
            | .ok t => t
            | .error _ => "[富文本内容]",
          content_type := .richText, html_content := none,
          rtf_content := env.get_rich_text.toOption, image_path := none,
          timestamp := ts }
  else if env.hasHtml then
    .ok { id := 0,
          content := match env.get_text with
            | .ok t => t
            | .error _ => "[HTML内容]",
          content_type := .html, html_content := env.get_html.toOption,
          rtf_content := none, image_path := none, timestamp := ts }
  else
    match env.get_text with
    | .ok t =>
      .ok { id := 0, content := t, content_type := .text,
            html_content := none, rtf_content := none, image_path := none,
            timestamp := ts }
    | .error e => .error ("获取剪贴板文本失败: " ++ e)

/-- The `clear_clipboard_history` command, `lib.rs` lines 445-450: empty the
history, reset `next_id` to 0, clear `last_content_hash`. -/
def clear_clipboard_history (s : ClipboardState) : ClipboardState :=
  { s with history := [], next_id := 0, last_content_hash := none }

/-- The `set_max_history_size` command, `lib.rs` lines 473-486: store the new
bound, and when the current length exceeds it, `split_off` the tail that keeps
the most recent `size` entries. -/
def set_max_history_size (size : Nat) (s : ClipboardState) : ClipboardState :=
  let s1 := { s with max_history_size := size }
  if s1.history.length > size then
    { s1 with history := s1.history.drop (s1.history.length - size) }
  else s1

/-- One store-level insert of already-classified content: `create_item`
followed by `add_item`, the `insert(candidate)` operation of the history
store. -/
def insertCl (ts : Nat) (s : ClipboardState) (cl : Classified) :
    ClipboardState :=
  (add_item s (create_item s cl.content cl.content_type cl.html_content
    cl.rtf_content cl.image_path ts)).1

/-- The item that `create_item` builds from a classified tuple when the
state's `next_id` is `n` and the timestamp is `ts`. -/
def Classified.toItem (cl : Classified) (n ts : Nat) : ClipboardItem :=
  { id := n, content := cl.content, content_type := cl.content_type,
    html_content := cl.html_content, rtf_content := cl.rtf_content,
    image_path := cl.image_path, timestamp := ts }

/-- The items that a run of inserts starting at id `n` produces, in insertion
order. -/
def mkItems (n ts : Nat) : List Classified → List ClipboardItem
  | [] => []
  | cl :: cls => cl.toItem n ts :: mkItems (n + 1) ts cls

/-- The `get_clipboard_history` command, `lib.rs` lines 300-320: a snapshot is
a clone of the current history, oldest first. -/
def get_clipboard_history (s : ClipboardState) : List ClipboardItem :=
  s.history

/-- The fingerprint that any item built by `create_item` from a classified
tuple receives, independent of the state, id and timestamp. -/
def clHash (cl : Classified) : List String :=
  [cl.content] ++ cl.html_content.toList ++ cl.rtf_content.toList
    ++ cl.image_path.toList

/-- A plain-text classified tuple, as produced by the plain-text branch of
classification. -/
def clText (c : String) : Classified :=
  { content := c, content_type := .text, html_content := none,
    rtf_content := none, image_path := none }

/-- A clipboard observation with an image present whose `get_image` read
fails. -/
def envImgReadFail : ClipEnv :=
  { hasImage := true, hasRtf := false, hasHtml := false,
    get_image := .error "读取图片失败", save_image := .ok (),
    get_rich_text := .error "", get_html := .error "",
    get_text := .error "" }

/-- A clipboard observation with an image present that reads and saves
successfully. -/
def envImgPresent : ClipEnv :=
  { hasImage := true, hasRtf := false, hasHtml := false,
    get_image := .ok (), save_image := .ok (),
    get_rich_text := .error "", get_html := .error "",
    get_text := .error "" }

/-- A clipboard observation with no rich format whose plain-text read succeeds
with the empty string. -/
def envEmptyText : ClipEnv :=
  { hasImage := false, hasRtf := false, hasHtml := false,
    get_image := .error "", save_image := .ok (),
    get_rich_text := .error "", get_html := .error "",
    get_text := .ok "" }

/-- A clipboard observation with no rich format whose plain-text read fails. -/
def envTextFail : ClipEnv :=
  { hasImage := false, hasRtf := false, hasHtml := false,
    get_image := .error "", save_image := .ok (),
    get_rich_text := .error "", get_html := .error "",
    get_text := .error "boom" }

/-- An HTML capture: only the HTML format is present, the raw HTML payload
reads as `payload` and the plain text reads as `display`. -/
def envHtmlCapture (payload display : String) : ClipEnv :=
  { hasImage := false, hasRtf := false, hasHtml := true,
    get_image := .error "", save_image := .ok (),
    get_rich_text := .error "", get_html := .ok payload,
    get_text := .ok display }

/-- A rich-text capture: only the RTF format is present, the rich payload
reads as `payload` and the plain text reads as `display`. -/
def envRtfCapture (payload display : String) : ClipEnv :=
  { hasImage := false, hasRtf := true, hasHtml := false,
    get_image := .error "", save_image := .ok (),
    get_rich_text := .ok payload, get_html := .error "",
    get_text := .ok display }

/-- A state whose `last_content_hash` already holds the fingerprint of the
plain text "x". -/
def sDup : ClipboardState :=
  { history := [], last_content_hash := some ["x"], next_id := 7,
    max_history_size := 100 }

/-- Two items agreeing on the four hashed fields but differing in `id`,
`content_type` and `timestamp`. -/
def itemW1 : ClipboardItem :=
  { id := 0, content := "a", content_type := .text, html_content := none,
    rtf_content := none, image_path := none, timestamp := 1 }

def itemW2 : ClipboardItem :=
  { id := 5, content := "a", content_type := .html, html_content := none,
    rtf_content := none, image_path := none, timestamp := 99 }

lemma calculate_hash_create_item (s : ClipboardState) (cl : Classified)
    (ts : Nat) :
    calculate_hash (create_item s cl.content cl.content_type cl.html_content
      cl.rtf_content cl.image_path ts) = clHash cl := rfl

lemma insertCl_eq (ts : Nat) (s : ClipboardState) (cl : Classified)
    (h : s.history.length ≤ s.max_history_size) :
    insertCl ts s cl =
      { history := (s.history ++ [cl.toItem s.next_id ts]).drop
          (s.history.length + 1 - s.max_history_size),
        last_content_hash := some (clHash cl),
        next_id := s.next_id + 1,
        max_history_size := s.max_history_size } := by
  unfold insertCl add_item create_item Classified.toItem
  by_cases hc : s.history.length + 1 > s.max_history_size
  · have h1 : s.history.length + 1 - s.max_history_size = 1 := by omega
    simp [hc, h1, clHash, calculate_hash]
  · have h0 : s.history.length + 1 - s.max_history_size = 0 := by omega
    simp [hc, h0, clHash, calculate_hash]

lemma mkItems_length (n ts : Nat) (cls : List Classified) :
    (mkItems n ts cls).length = cls.length := by
  induction cls generalizing n with
  | nil => rfl
  | cons cl cls ih => simp [mkItems, ih]

lemma mkItems_map_id (n ts : Nat) (cls : List Classified) :
    (mkItems n ts cls).map (fun i => i.id) = List.range' n cls.length := by
  induction cls generalizing n with
  | nil => rfl
  | cons cl cls ih => simp [mkItems, ih, List.range'_succ, Classified.toItem]

lemma mkItems_map_content (n ts : Nat) (cls : List Classified) :
    (mkItems n ts cls).map (fun i => i.content)
      = cls.map (fun c => c.content) := by
  induction cls generalizing n with
  | nil => rfl
  | cons cl cls ih => simp [mkItems, ih, Classified.toItem]

lemma range'_drop (k s n : Nat) :
    (List.range' s n).drop k = List.range' (s + k) (n - k) := by
  induction k generalizing s n with
  | zero => simp
  | succ k ih =>
    cases n with
    | zero => simp
    | succ n =>
      rw [List.range'_succ, List.drop_succ_cons, ih]
      congr 1 <;> omega

/-- Characterization of a run of store-level inserts: capacity is preserved,
`next_id` advances by the number of inserts, and the history is the suffix of
"old history followed by the freshly created items" that fits the capacity. -/
lemma foldl_insertCl_eq (ts : Nat) (cls : List Classified) :
    ∀ (s : ClipboardState), s.history.length ≤ s.max_history_size →
    (cls.foldl (insertCl ts) s).max_history_size = s.max_history_size ∧
    (cls.foldl (insertCl ts) s).next_id = s.next_id + cls.length ∧
    (cls.foldl (insertCl ts) s).history =
      (s.history ++ mkItems s.next_id ts cls).drop
        (s.history.length + cls.length - s.max_history_size) := by
  induction cls with
  | nil =>
    intro s h
    have h0 : s.history.length - s.max_history_size = 0 := by omega
    simp [mkItems, h0]
  | cons cl cls ih =>
    intro s h
    have hs1 := insertCl_eq ts s cl h
    have hh1 : (insertCl ts s cl).history
        = (s.history ++ [cl.toItem s.next_id ts]).drop
          (s.history.length + 1 - s.max_history_size) := by rw [hs1]
    have hm1 : (insertCl ts s cl).max_history_size = s.max_history_size := by
      rw [hs1]
    have hn1 : (insertCl ts s cl).next_id = s.next_id + 1 := by rw [hs1]
    have hlen1 : (insertCl ts s cl).history.length
        = s.history.length + 1
          - (s.history.length + 1 - s.max_history_size) := by
      rw [hh1]; simp
    have hle1 : (insertCl ts s cl).history.length
        ≤ (insertCl ts s cl).max_history_size := by
      rw [hlen1, hm1]; omega
    have hfold : (cl :: cls).foldl (insertCl ts) s
        = cls.foldl (insertCl ts) (insertCl ts s cl) := rfl
    obtain ⟨hmax, hid, hhist⟩ := ih (insertCl ts s cl) hle1
    rw [hfold]
    have hd1 : s.history.length + 1 - s.max_history_size
        ≤ (s.history ++ [cl.toItem s.next_id ts]).length := by
      simp only [List.length_append, List.length_cons, List.length_nil]
      omega
    refine ⟨?_, ?_, ?_⟩
    · rw [hmax, hm1]
    · rw [hid, hn1]
      simp only [List.length_cons]
      omega
    · rw [hhist, hh1, hn1, hm1]
      rw [← List.drop_append_of_le_length hd1, List.drop_drop]
      simp only [List.length_drop, List.length_append, List.length_cons,
        List.length_nil, List.append_assoc, List.singleton_append, mkItems]
      congr 1
      omega

/-- After any store phase the `last_content_hash` marker holds the fingerprint
of the candidate's classified content: either the candidate was just inserted
(and `add_item` recorded it), or it was discarded because the marker already
held exactly that fingerprint. -/
lemma storePhase_last_hash (cl : Classified) (ts : Nat) (s : ClipboardState) :
    (storePhase cl ts s).1.last_content_hash = some (clHash cl) := by
  unfold storePhase
  simp only [calculate_hash_create_item]
  split
  · next hdup => exact hdup
  · simp [add_item, calculate_hash_create_item]

/-- The dedup gate: a candidate whose fingerprint equals `last_content_hash`
is discarded and the state is returned unchanged. -/
lemma storePhase_dup (cl : Classified) (ts : Nat) (s : ClipboardState)
    (h : s.last_content_hash = some (clHash cl)) :
    storePhase cl ts s = (s, none) := by
  unfold storePhase
  simp only [calculate_hash_create_item]
  rw [if_pos h]

/-- Two consecutive captures whose classified contents have equal fingerprints:
the second is always discarded with the state unchanged. -/
lemma storePhase_twice (cl1 cl2 : Classified) (ts1 ts2 : Nat)
    (s : ClipboardState) (h : clHash cl2 = clHash cl1) :
    storePhase cl2 ts2 (storePhase cl1 ts1 s).1
      = ((storePhase cl1 ts1 s).1, none) :=
  storePhase_dup _ _ _ (by rw [storePhase_last_hash, h])

/-- The fresh store obtained by setting capacity `C` on the default state. -/
lemma set_capacity_default (C : Nat) :
    set_max_history_size C ClipboardState.default
      = { history := [], last_content_hash := none, next_id := 0,
          max_history_size := C } := by
  simp [set_max_history_size, ClipboardState.default]

/-- C1: for every capacity `C` and every sequence of `N` inserts of
pairwise-distinct content into a fresh store, the snapshot holds exactly
`min N C` entries, namely the last `min N C` inserted ones in insertion order
(oldest first) — i.e. the suffix of the created items that fits the capacity —
with ids `N - min N C` through `N - 1`, ids being assigned sequentially
from 0. -/
theorem snapshot_of_distinct_inserts (C ts : Nat) (cls : List Classified)
    (hdist : cls.Pairwise (fun a b => a ≠ b)) :
    get_clipboard_history (cls.foldl (insertCl ts)
        (set_max_history_size C ClipboardState.default))
      = (mkItems 0 ts cls).drop (cls.length - C) ∧
    (get_clipboard_history (cls.foldl (insertCl ts)
        (set_max_history_size C ClipboardState.default))).length
      = min cls.length C ∧
    (get_clipboard_history (cls.foldl (insertCl ts)
        (set_max_history_size C ClipboardState.default))).map (fun i => i.id)
      = List.range' (cls.length - C) (min cls.length C) ∧
    (get_clipboard_history (cls.foldl (insertCl ts)
        (set_max_history_size C ClipboardState.default))).map
        (fun i => i.content)
      = (cls.map (fun c => c.content)).drop (cls.length - C) := by
  obtain ⟨hmax, hid, hhist⟩ := foldl_insertCl_eq ts cls
    { history := [], last_content_hash := none, next_id := 0,
      max_history_size := C } (by simp)
  simp only [List.nil_append, List.length_nil, Nat.zero_add] at hhist
  rw [get_clipboard_history, set_capacity_default, hhist]
  refine ⟨rfl, ?_, ?_, ?_⟩
  · rw [List.length_drop, mkItems_length]
    omega
  · rw [List.map_drop, mkItems_map_id, range'_drop, Nat.zero_add]
    congr 1
    omega
  · rw [List.map_drop, mkItems_map_content]

/-- Witness for C1 at the spec's scenario: capacity 3, inserting the four
pairwise-distinct plain texts "a", "b", "c", "d" leaves the snapshot
["b", "c", "d"] with ids [1, 2, 3]. -/
theorem snapshot_of_distinct_inserts_witness :
    ([clText "a", clText "b", clText "c",
        clText "d"].Pairwise (fun a b => a ≠ b)) ∧
    get_clipboard_history ([clText "a", clText "b", clText "c",
        clText "d"].foldl (insertCl 7)
          (set_max_history_size 3 ClipboardState.default))
      = (mkItems 0 7 [clText "a", clText "b", clText "c", clText "d"]).drop
          ([clText "a", clText "b", clText "c", clText "d"].length - 3) ∧
    (get_clipboard_history ([clText "a", clText "b", clText "c",
        clText "d"].foldl (insertCl 7)
          (set_max_history_size 3 ClipboardState.default))).map
        (fun i => i.content) = ["b", "c", "d"] ∧
    (get_clipboard_history ([clText "a", clText "b", clText "c",
        clText "d"].foldl (insertCl 7)
          (set_max_history_size 3 ClipboardState.default))).map
        (fun i => i.id) = [1, 2, 3] :=
  ⟨by decide,
   (snapshot_of_distinct_inserts 3 7 _ (by decide)).1,
   by decide, by decide⟩

/-- C2: when the captured content's fingerprint equals the store's
`last_content_hash`, the update is discarded as "no change" (`none`, the
`Ok(false)` return) and the state — history, `next_id`, `last_content_hash` —
is returned unchanged; consequently capturing the same classified content
twice in a row yields a "no change" second result, and from the default store
exactly one stored entry. -/
theorem dedup_discards_duplicate (cl : Classified) (ts ts' : Nat)
    (s : ClipboardState)
    (h : s.last_content_hash = some (calculate_hash (create_item s cl.content
      cl.content_type cl.html_content cl.rtf_content cl.image_path ts))) :
    storePhase cl ts s = (s, none) ∧
    storePhase cl ts' (storePhase cl ts s).1
      = ((storePhase cl ts s).1, none) ∧
    (storePhase cl ts' (storePhase cl ts ClipboardState.default).1).1.history.length
      = 1 := by
  refine ⟨storePhase_dup cl ts s (by rwa [calculate_hash_create_item] at h),
    storePhase_twice cl cl ts ts' s rfl, ?_⟩
  rw [storePhase_twice cl cl ts ts' ClipboardState.default rfl]
  simp [storePhase, ClipboardState.default, add_item]

/-- Witness for C2: a store whose `last_content_hash` is the fingerprint of
the plain text "x" discards a fresh capture of "x" unchanged. -/
theorem dedup_discards_duplicate_witness :
    sDup.last_content_hash = some (calculate_hash (create_item sDup
      (clText "x").content (clText "x").content_type
      (clText "x").html_content (clText "x").rtf_content
      (clText "x").image_path 3)) ∧
    storePhase (clText "x") 3 sDup = (sDup, none) :=
  ⟨by decide, (dedup_discards_duplicate (clText "x") 3 4 sDup (by decide)).1⟩

/-- C3: the fingerprint is a deterministic pure function of
`(content, html_content, rtf_content, image_path)` only: two items agreeing
on those four fields have equal fingerprints even if `id`, `content_type` or
`timestamp` differ. -/
theorem fingerprint_ignores_id_kind_timestamp (i1 i2 : ClipboardItem)
    (hc : i1.content = i2.content) (hh : i1.html_content = i2.html_content)
    (hr : i1.rtf_content = i2.rtf_content)
    (hi : i1.image_path = i2.image_path) :
    calculate_hash i1 = calculate_hash i2 := by
  unfold calculate_hash
  rw [hc, hh, hr, hi]

/-- Witness for C3: two concrete items differing in `id`, `content_type` and
`timestamp` but agreeing on the hashed fields have equal fingerprints. -/
theorem fingerprint_ignores_id_kind_timestamp_witness :
    itemW1.content = itemW2.content ∧
    itemW1.html_content = itemW2.html_content ∧
    itemW1.rtf_content = itemW2.rtf_content ∧
    itemW1.image_path = itemW2.image_path ∧
    itemW1.id ≠ itemW2.id ∧
    itemW1.content_type ≠ itemW2.content_type ∧
    itemW1.timestamp ≠ itemW2.timestamp ∧
    calculate_hash itemW1 = calculate_hash itemW2 :=
  ⟨rfl, rfl, rfl, rfl, by decide, by decide, by decide,
    fingerprint_ignores_id_kind_timestamp itemW1 itemW2 rfl rfl rfl rfl⟩

/-- C4 counterexample: when the image format is present but the image read
fails, classification produces an entry of kind `Image` with NONE of
`{html_content, rtf_content, image_path}` populated — refuting "exactly one
of the three is populated" and "Image entries populate image_handle". -/
theorem image_read_failure_populates_none :
    (classify envImgReadFail 0).content_type = ClipboardContentType.image ∧
    (classify envImgReadFail 0).html_content = none ∧
    (classify envImgReadFail 0).rtf_content = none ∧
    (classify envImgReadFail 0).image_path = none := by decide

/-- C4 (amended): for every entry produced by classification, AT MOST one of
`{html_content, rtf_content, image_path}` is populated, and only the slot
matching `content_type`: Image entries may populate only `image_path`,
RichText only `rtf_content`, Html only `html_content`, and PlainText/Unknown
populate none; a failed read leaves the matching slot empty. -/
theorem classification_populates_at_most_one (env : ClipEnv) (ts : Nat) :
    (match (classify env ts).content_type with
     | ClipboardContentType.image =>
         (classify env ts).html_content = none
           ∧ (classify env ts).rtf_content = none
     | ClipboardContentType.richText =>
         (classify env ts).html_content = none
           ∧ (classify env ts).image_path = none
     | ClipboardContentType.html =>
         (classify env ts).rtf_content = none
           ∧ (classify env ts).image_path = none
     | _ =>
         (classify env ts).html_content = none
           ∧ (classify env ts).rtf_content = none
           ∧ (classify env ts).image_path = none) := by
  obtain ⟨hi, hr, hh, gi, si, grt, ghl, gt⟩ := env
  cases hi <;> cases hr <;> cases hh <;> cases gi <;> cases si <;>
    cases grt <;> cases ghl <;> cases gt <;> simp [classify]

/-- C5: image presence dominates classification regardless of other formats:
the entry has kind `Image`; on successful read and save it carries the image
file handle and the fixed placeholder text; on read failure or save failure it
still has kind `Image` with an error placeholder and no handle; and the
failure does not abort the capture cycle — the entry still reaches the store
phase and is inserted into a fresh store. -/
theorem image_precedence_and_failure (env : ClipEnv) (ts : Nat)
    (himg : env.hasImage = true) :
    (classify env ts).content_type = ClipboardContentType.image ∧
    (match env.get_image, env.save_image with
     | Except.ok _, Except.ok _ =>
         (classify env ts).image_path = some (imageFileName ts)
           ∧ (classify env ts).content = "[图片内容]"
     | Except.ok _, Except.error _ =>
         (classify env ts).image_path = none
           ∧ (classify env ts).content = "[图片内容-保存失败]"
     | Except.error _, _ =>
         (classify env ts).image_path = none
           ∧ (classify env ts).content = "[图片内容-读取失败]") ∧
    (handle_clipboard_update env ts ClipboardState.default).2.isSome
      = true := by
  rcases hgi : env.get_image with e | u <;>
    rcases hsi : env.save_image with e' | u' <;>
    simp [classify, himg, hgi, hsi, handle_clipboard_update, storePhase,
      ClipboardState.default, add_item, create_item]

/-- Witness for C5: the concrete observation whose image read fails yields an
`Image` entry with the read-failure placeholder, no handle, and is still
committed to a fresh store. -/
theorem image_precedence_and_failure_witness :
    envImgReadFail.hasImage = true ∧
    (classify envImgReadFail 0).content_type = ClipboardContentType.image ∧
    (classify envImgReadFail 0).content = "[图片内容-读取失败]" ∧
    (handle_clipboard_update envImgReadFail 0
        ClipboardState.default).2.isSome = true :=
  ⟨rfl, (image_precedence_and_failure envImgReadFail 0 rfl).1, by decide,
    (image_precedence_and_failure envImgReadFail 0 rfl).2.2⟩

/-- C6 counterexample: when no rich format is present and the plain-text read
succeeds with the empty string, classification keeps it verbatim: the produced
entry has `content = ""` — refuting "display_text is a non-empty string". -/
theorem empty_plain_text_kept_verbatim :
    (classify envEmptyText 0).content = "" ∧
    (classify envEmptyText 0).content_type = ClipboardContentType.text := by
  decide

/-- C6 (amended): for every entry produced by classification, `display_text`
is non-empty unless the plain-text read succeeded with the empty string (which
is kept verbatim); in particular, every read-failure path yields a fixed
non-empty placeholder. -/
theorem display_text_nonempty_unless_empty_plain_text (env : ClipEnv)
    (ts : Nat) (h : env.get_text ≠ Except.ok "") :
    (classify env ts).content ≠ "" := by
  rcases hgt : env.get_text with e | t
  · cases hi : env.hasImage <;> rcases hgi : env.get_image with e1 | u1 <;>
      rcases hsi : env.save_image with e2 | u2 <;>
      cases hr : env.hasRtf <;> cases hh : env.hasHtml <;>
      simp [classify, hi, hgi, hsi, hr, hh, hgt]
  · have ht : t ≠ "" := by
      rw [hgt] at h
      simpa using h
    cases hi : env.hasImage <;> rcases hgi : env.get_image with e1 | u1 <;>
      rcases hsi : env.save_image with e2 | u2 <;>
      cases hr : env.hasRtf <;> cases hh : env.hasHtml <;>
      simp [classify, hi, hgi, hsi, hr, hh, hgt] <;>
      exact ht

/-- Witness for C6 (amended): a failing plain-text read yields the non-empty
placeholder "[读取失败]". -/
theorem display_text_nonempty_unless_empty_plain_text_witness :
    envTextFail.get_text ≠ Except.ok "" ∧
    (classify envTextFail 0).content ≠ "" :=
  ⟨by decide,
    display_text_nonempty_unless_empty_plain_text envTextFail 0 (by decide)⟩

/-- C7 counterexample: when no image, RTF or HTML format is present and the
plain-text read fails, `get_clipboard_content` returns an error to the
caller — refuting "clipboard read errors ... never cause the operation to
return an error". -/
theorem read_current_errors_on_text_failure :
    get_clipboard_content envTextFail 0
      = Except.error "获取剪贴板文本失败: boom" := by decide

/-- C7 (amended): `get_clipboard_content` re-runs classification against the
live clipboard without consulting the dedup gate or the store, and whenever an
image, RTF or HTML format is present, or the plain-text read succeeds, it
returns a freshly computed entry with the sentinel id 0; only when no rich
format is present and the plain-text read fails does it return an error. -/
theorem read_current_fresh_entry (env : ClipEnv) (ts : Nat)
    (h : env.hasImage = true ∨ env.hasRtf = true ∨ env.hasHtml = true
      ∨ ∃ t, env.get_text = Except.ok t) :
    ∃ item, get_clipboard_content env ts = Except.ok item ∧ item.id = 0 := by
  by_cases hi : env.hasImage = true
  · simp [get_clipboard_content, hi]
  · by_cases hr : env.hasRtf = true
    · simp [get_clipboard_content, hi, hr]
    · by_cases hh : env.hasHtml = true
      · simp [get_clipboard_content, hi, hh, hr]
      · rcases h with h | h | h | ⟨t, ht⟩
        · exact absurd h hi
        · exact absurd h hr
        · exact absurd h hh
        · simp [get_clipboard_content, hi, hr, hh, ht]

/-- Witness for C7 (amended): with an image present, `get_clipboard_content`
returns an `Ok` entry with id 0. -/
theorem read_current_fresh_entry_witness :
    envImgPresent.hasImage = true ∧
    ∃ item, get_clipboard_content envImgPresent 0 = Except.ok item
      ∧ item.id = 0 :=
  ⟨rfl, read_current_fresh_entry envImgPresent 0 (Or.inl rfl)⟩

/-- C8: `clear_clipboard_history` empties the history, resets the id
generator to zero and clears the last-fingerprint marker; therefore the very
next capture — of ANY classified content, in particular content equal to the
last entry inserted before the clear — is unconditionally accepted and the
stored entry has id 0. -/
theorem clear_resets_store (s : ClipboardState) (cl : Classified) (ts : Nat) :
    (clear_clipboard_history s).history = [] ∧
    (clear_clipboard_history s).next_id = 0 ∧
    (clear_clipboard_history s).last_content_hash = none ∧
    ∃ item, (storePhase cl ts (clear_clipboard_history s)).2 = some item
      ∧ item.id = 0 := by
  refine ⟨rfl, rfl, rfl, cl.toItem 0 ts, ?_, rfl⟩
  simp [storePhase, clear_clipboard_history, add_item, create_item,
    Classified.toItem]

/-- A store with capacity 0 and empty history stays empty across one store
phase (whether the candidate is discarded or inserted-and-immediately
evicted). -/
lemma storePhase_zero_capacity (cl : Classified) (ts : Nat)
    (st : ClipboardState) (h1 : st.history = [])
    (h2 : st.max_history_size = 0) :
    (storePhase cl ts st).1.history = [] ∧
    (storePhase cl ts st).1.max_history_size = 0 := by
  unfold storePhase
  by_cases hc : st.last_content_hash
      = some (calculate_hash (create_item st cl.content cl.content_type
        cl.html_content cl.rtf_content cl.image_path ts))
  · simp [hc, h1, h2]
  · simp [hc, add_item, h1, h2]

/-- A store with capacity 0 and empty history stays empty across any sequence
of store phases. -/
lemma foldl_storePhase_zero_capacity (ups : List (Classified × Nat)) :
    ∀ st : ClipboardState, st.history = [] → st.max_history_size = 0 →
    (ups.foldl (fun st p => (storePhase p.1 p.2 st).1) st).history = [] := by
  induction ups with
  | nil => intro st h1 _; exact h1
  | cons p ups ih =>
    intro st h1 h2
    obtain ⟨h1', h2'⟩ := storePhase_zero_capacity p.1 p.2 st h1 h2
    exact ih _ h1' h2'

/-- C9: `set_max_history_size k` updates the capacity bound and truncates the
history to exactly the most recent `k` entries when it is longer (its history
becomes the drop of all but the last `k`, so its length is `min L k`), leaves
the history contents unchanged when `L ≤ k`, and capacity 0 is legal: after
`set_max_history_size 0` every subsequent sequence of inserts leaves the
history empty. -/
theorem set_capacity_truncates (s : ClipboardState) (k : Nat)
    (ups : List (Classified × Nat)) :
    (set_max_history_size k s).max_history_size = k ∧
    (set_max_history_size k s).history
      = s.history.drop (s.history.length - k) ∧
    (set_max_history_size k s).history.length = min s.history.length k ∧
    (s.history.length ≤ k → (set_max_history_size k s).history = s.history) ∧
    (ups.foldl (fun st p => (storePhase p.1 p.2 st).1)
        (set_max_history_size 0 s)).history = [] := by
  have hmain : (set_max_history_size k s).max_history_size = k ∧
      (set_max_history_size k s).history
        = s.history.drop (s.history.length - k) := by
    unfold set_max_history_size
    by_cases hc : s.history.length > k
    · simp [hc]
    · have h0 : s.history.length - k = 0 := by omega
      simp [hc, h0]
  have hzero : (set_max_history_size 0 s).history = [] ∧
      (set_max_history_size 0 s).max_history_size = 0 := by
    obtain ⟨hm, hh⟩ :
        (set_max_history_size 0 s).max_history_size = 0 ∧
        (set_max_history_size 0 s).history
          = s.history.drop (s.history.length - 0) := by
      unfold set_max_history_size
      by_cases hc : s.history.length > 0
      · simp [hc]
      · have h0 : s.history.length - 0 = 0 := by omega
        simp [hc, h0]
    refine ⟨?_, hm⟩
    rw [hh, Nat.sub_zero, List.drop_length]
  refine ⟨hmain.1, hmain.2, ?_, ?_, ?_⟩
  · rw [hmain.2, List.length_drop]
    omega
  · intro hle
    rw [hmain.2]
    have h0 : s.history.length - k = 0 := by omega
    rw [h0, List.drop_zero]
  · exact foldl_storePhase_zero_capacity ups _ hzero.1 hzero.2

/-- Witness for C9 (its fourth conjunct is conditional): on the default store
(empty history, length 0 ≤ 5) setting capacity 5 keeps the history
unchanged, and after setting capacity 0 a subsequent insert of "x" leaves the
history empty. -/
theorem set_capacity_truncates_witness :
    ClipboardState.default.history.length ≤ 5 ∧
    (set_max_history_size 5 ClipboardState.default).max_history_size = 5 ∧
    (set_max_history_size 5 ClipboardState.default).history
      = ClipboardState.default.history ∧
    ([(clText "x", 3)].foldl (fun st p => (storePhase p.1 p.2 st).1)
        (set_max_history_size 0 ClipboardState.default)).history = [] :=
  ⟨by decide,
    (set_capacity_truncates ClipboardState.default 5 [(clText "x", 3)]).1,
    (set_capacity_truncates ClipboardState.default 5
      [(clText "x", 3)]).2.2.2.1 (by decide),
    (set_capacity_truncates ClipboardState.default 0
      [(clText "x", 3)]).2.2.2.2⟩

/-- C10: the fingerprint hashes the optional variant fields without any field
tag, so it cannot tell which slot a string occupies: an entry with
`html_content = some payload` has the same fingerprint as an otherwise-equal
entry with `rtf_content = some payload` instead; consequently a watcher cycle
that captures rich text carrying the identical payload and display text right
after an HTML capture is treated as a duplicate and discarded. -/
theorem untagged_hash_conflates_html_and_rtf (payload display : String)
    (i1 i2 t1 t2 ts1 ts2 : Nat) (st : ClipboardState) :
    calculate_hash
        { id := i1, content := display,
          content_type := ClipboardContentType.html,
          html_content := some payload, rtf_content := none,
          image_path := none, timestamp := t1 }
      = calculate_hash
          { id := i2, content := display,
            content_type := ClipboardContentType.richText,
            html_content := none, rtf_content := some payload,
            image_path := none, timestamp := t2 } ∧
    handle_clipboard_update (envRtfCapture payload display) ts2
        (handle_clipboard_update (envHtmlCapture payload display) ts1 st).1
      = ((handle_clipboard_update (envHtmlCapture payload display) ts1 st).1,
          none) := by
  refine ⟨rfl, ?_⟩
  exact storePhase_twice (classify (envHtmlCapture payload display) ts1)
    (classify (envRtfCapture payload display) ts2) ts1 ts2 st rfl

end ClipboardDemo
